import Mathlib

/-!
Verification development for the opennotes community-notes server.

The definitions below shallowly embed the program:
* `core/auth.py` (trust levels, scopes, role→scope map) — translated directly
  from the source.
* `services/scoring_service.py` and `api/v1/endpoints/scoring.py` — control
  flow of `score_notes` and the `/score` endpoint, with the pandas/scoring
  adapter kept abstract.
* the engagement engine (request aggregation, note lifecycle, rate limiter,
  notification retry) — the repository only declares the database schema for
  these components (`db/models/*.py`); the operational logic is modelled from
  the specification, as noted on each definition.

Machine times are modelled as `Nat`, ratios as `ℚ`.
-/

namespace OpenNotes

/-- Trust levels, from `core/auth.py` `class TrustLevel(str, Enum)`. -/
inductive TrustLevel
  | newcomer
  | contributor
  | trusted
  | moderator
  | admin
deriving DecidableEq, Repr, Fintype

/-- The string value of a trust level, as in the Python `str` enum. -/
def TrustLevel.value : TrustLevel → String
  | .newcomer => "newcomer"
  | .contributor => "contributor"
  | .trusted => "trusted"
  | .moderator => "moderator"
  | .admin => "admin"

/-- Capability scopes, from `core/auth.py` `class Scope(str, Enum)`. -/
inductive Scope
  | notes_read
  | notes_write
  | notes_delete_own
  | notes_delete_any
  | requests_write
  | ratings_write
  | users_read
  | users_write_self
  | users_write_any
  | moderation_read
  | moderation_write
  | analytics_read
  | server_config
deriving DecidableEq, Repr, Fintype

/-- The string value of a scope, as in the Python `str` enum. -/
def Scope.value : Scope → String
  | .notes_read => "notes:read"
  | .notes_write => "notes:write"
  | .notes_delete_own => "notes:delete_own"
  | .notes_delete_any => "notes:delete_any"
  | .requests_write => "requests:write"
  | .ratings_write => "ratings:write"
  | .users_read => "users:read"
  | .users_write_self => "users:write_self"
  | .users_write_any => "users:write_any"
  | .moderation_read => "moderation:read"
  | .moderation_write => "moderation:write"
  | .analytics_read => "analytics:read"
  | .server_config => "server:config"

/-- All scopes in declaration order; the Python `[scope for scope in Scope]`. -/
def allScopes : List Scope :=
  [.notes_read, .notes_write, .notes_delete_own, .notes_delete_any,
   .requests_write, .ratings_write, .users_read, .users_write_self,
   .users_write_any, .moderation_read, .moderation_write, .analytics_read,
   .server_config]

/-- The role→scope dictionary `ROLE_SCOPES` of `core/auth.py`, entry by entry. -/
def ROLE_SCOPES : TrustLevel → List Scope
  | .newcomer =>
      [.notes_read, .requests_write, .users_read, .users_write_self]
  | .contributor =>
      [.notes_read, .notes_write, .notes_delete_own, .requests_write,
       .ratings_write, .users_read, .users_write_self]
  | .trusted =>
      [.notes_read, .notes_write, .notes_delete_own, .requests_write,
       .ratings_write, .users_read, .users_write_self, .analytics_read]
  | .moderator =>
      [.notes_read, .notes_write, .notes_delete_own, .notes_delete_any,
       .requests_write, .ratings_write, .users_read, .users_write_self,
       .moderation_read, .moderation_write, .analytics_read]
  | .admin => allScopes

/-- Lookup of a raw string in the `TrustLevel` `str`-enum: in Python,
`ROLE_SCOPES.get(x, [])` finds an entry exactly when `x` equals one of the five
enum values (a `str` enum member compares and hashes as its value). -/
def parseTrustLevel (s : String) : Option TrustLevel :=
  if s = "newcomer" then some .newcomer
  else if s = "contributor" then some .contributor
  else if s = "trusted" then some .trusted
  else if s = "moderator" then some .moderator
  else if s = "admin" then some .admin
  else none

/-- Function `get_scopes_for_role` of `core/auth.py`:
`return [scope.value for scope in ROLE_SCOPES.get(trust_level, [])]`.
The argument is the raw string carried by the (dynamically typed) trust-level
value; an unrecognized level finds no dictionary entry and yields `[]`. -/
def get_scopes_for_role (trust_level : String) : List String :=
  match parseTrustLevel trust_level with
  | some t => (ROLE_SCOPES t).map Scope.value
  | none => []

/-- Python exception outcomes relevant to the scoring code: `ValueError` versus
any other exception. -/
inductive PyError
  | valueError (msg : String)
  | otherError (msg : String)
deriving DecidableEq, Repr

/-- The collaborators that `ScoringService.score_notes` delegates to
(`ScoringAdapter`'s dataframe transforms and the external scoring batch
function), kept abstract: the spec treats scoring as an opaque batch function.
`Row` stands for a `dict[str, Any]`, `DF` for a pandas dataframe, `R` for the
scored result triple. -/
structure ScoringAdapterModel (Row DF R : Type) where
  transform_notes_to_dataframe : List Row → DF
  transform_ratings_to_dataframe : List Row → DF
  transform_enrollment_to_dataframe : List Row → DF
  transform_status_to_dataframe : List Row → DF
  score : DF → DF → DF → Option DF → Except PyError R

/-- Method `ScoringService.score_notes` of `services/scoring_service.py`: the three
emptiness checks (`if not notes: raise ValueError(...)` etc., in source order)
run before any dataframe transformation; only past them does the service
transform the inputs and invoke the adapter. -/
def score_notes {Row DF R : Type} (A : ScoringAdapterModel Row DF R)
    (notes ratings enrollment : List Row) (status : Option (List Row)) :
    Except PyError R :=
  if notes.isEmpty then .error (.valueError "Notes list cannot be empty")
  else if ratings.isEmpty then .error (.valueError "Ratings list cannot be empty")
  else if enrollment.isEmpty then .error (.valueError "Enrollment list cannot be empty")
  else
    let notes_df := A.transform_notes_to_dataframe notes
    let ratings_df := A.transform_ratings_to_dataframe ratings
    let enrollment_df := A.transform_enrollment_to_dataframe enrollment
    let status_df := (status.filter (fun l => !l.isEmpty)).map A.transform_status_to_dataframe
    A.score notes_df ratings_df enrollment_df status_df

/-- An HTTP response as far as the claims observe it: status code and detail. -/
structure HttpResponse where
  status_code : Nat
  detail : String
deriving DecidableEq, Repr

/-- The `/score` endpoint of `api/v1/endpoints/scoring.py`: a successful
service call returns 200; a `ValueError` is caught and mapped to
400 `Invalid input data: ...`; any other exception maps to 500. -/
def score_notes_endpoint {Row DF R : Type} (A : ScoringAdapterModel Row DF R)
    (notes ratings enrollment : List Row) (status : Option (List Row)) :
    HttpResponse :=
  match score_notes A notes ratings enrollment status with
  | .ok _ => { status_code := 200, detail := "" }
  | .error (.valueError m) =>
      { status_code := 400, detail := "Invalid input data: " ++ m }
  | .error (.otherError m) =>
      { status_code := 500, detail := "Scoring failed: " ++ m }

/-- The rate-limit kinds of the configuration (`config.py`): per-day request
quotas and the general hourly quota; the `limit_type` column of
`db/models/rate_limiting.py`. -/
inductive LimitKind
  | requestsPerDay
  | generalHourly
deriving DecidableEq, Repr

/-- Constant `Settings.RATE_LIMIT_NEWCOMER_REQUESTS_PER_DAY` of `config.py`. -/
def RATE_LIMIT_NEWCOMER_REQUESTS_PER_DAY : Nat := 5

/-- Constant `Settings.RATE_LIMIT_CONTRIBUTOR_REQUESTS_PER_DAY` of `config.py`. -/
def RATE_LIMIT_CONTRIBUTOR_REQUESTS_PER_DAY : Nat := 10

/-- Constant `Settings.RATE_LIMIT_TRUSTED_REQUESTS_PER_DAY` of `config.py`. -/
def RATE_LIMIT_TRUSTED_REQUESTS_PER_DAY : Nat := 20

/-- Constant `Settings.RATE_LIMIT_GENERAL_REQUESTS_PER_HOUR` of `config.py`. -/
def RATE_LIMIT_GENERAL_REQUESTS_PER_HOUR : Nat := 100

/-- Modelled from the spec: `limit(trustLevel, limitKind)` of §4.2, using the
quota constants of `config.py` (the only quota values in the source). The
hourly general quota applies to all tiers; per-day quotas are configured for
newcomer/contributor/trusted only, so the remaining tiers are left
unspecified (`none`). -/
def limitFor : TrustLevel → LimitKind → Option Nat
  | _, .generalHourly => some RATE_LIMIT_GENERAL_REQUESTS_PER_HOUR
  | .newcomer, .requestsPerDay => some RATE_LIMIT_NEWCOMER_REQUESTS_PER_DAY
  | .contributor, .requestsPerDay => some RATE_LIMIT_CONTRIBUTOR_REQUESTS_PER_DAY
  | .trusted, .requestsPerDay => some RATE_LIMIT_TRUSTED_REQUESTS_PER_DAY
  | .moderator, .requestsPerDay => none
  | .admin, .requestsPerDay => none

/-- One `rate_limiting` row (`db/models/rate_limiting.py`) for a fixed
(user, limit_type) key: the mutable `count` and `reset_at` columns. -/
structure RateLimiting where
  count : Nat
  reset_at : Nat
deriving DecidableEq, Repr

/-- Decision returned by the rate limiter (spec §4.2). -/
structure RateLimitDecision where
  allowed : Bool
  remaining : Nat
  resetAt : Nat
deriving DecidableEq, Repr

/-- Modelled from the spec: `RateLimiter.check` of §4.2 (the checking logic is
not implemented in the repository; only the schema and quota constants are).
If `now >= resetAt`, roll the window (`count = 0`,
`resetAt = now + windowDuration`); if `count < limit`, increment and allow
with `remaining = limit - count` computed after the increment; otherwise deny
without mutating `count`, reporting `resetAt`. -/
def rlCheck (limit windowDur now : Nat) (s : RateLimiting) : RateLimitDecision × RateLimiting :=
  let s := if s.reset_at ≤ now then { count := 0, reset_at := now + windowDur } else s
  if s.count < limit then
    let s := { s with count := s.count + 1 }
    ({ allowed := true, remaining := limit - s.count, resetAt := s.reset_at }, s)
  else
    ({ allowed := false, remaining := limit - s.count, resetAt := s.reset_at }, s)

/-- A sequence of rate-limiter checks on one key, at the given times. -/
def rlRun (limit windowDur : Nat) (s : RateLimiting) : List Nat → RateLimiting
  | [] => s
  | now :: rest => rlRun limit windowDur (rlCheck limit windowDur now s).2 rest

/-- One `request_aggregations` row (`db/models/request_aggregation.py`):
aggregate counters and the two monotonic flags for a single message. -/
structure RequestAggregation where
  total_requests : Nat
  unique_requestors : Nat
  first_request_at : Option Nat
  last_request_at : Option Nat
  threshold_met : Bool
  threshold_met_at : Option Nat
  contributors_notified : Bool
  notified_at : Option Nat
deriving DecidableEq, Repr

/-- Column defaults of `request_aggregations`: counters 0, flags false. -/
def aggregationInit : RequestAggregation :=
  { total_requests := 0, unique_requestors := 0, first_request_at := none,
    last_request_at := none, threshold_met := false, threshold_met_at := none,
    contributors_notified := false, notified_at := none }

/-- Aggregator state for one message: the set of `note_requests` rows for the
message (requestor ids, unique by the `uq_message_requestor` constraint of
`db/models/note_request.py`) together with its `request_aggregations` row. -/
structure AggState where
  requestors : List String
  agg : RequestAggregation
deriving DecidableEq, Repr

/-- A message before any request: no `note_requests` rows, default aggregation. -/
def aggInit : AggState := { requestors := [], agg := aggregationInit }

/-- Result reported by `recordRequest` (spec §4.3). -/
structure RecordRequestResult where
  created : Bool
  thresholdCrossed : Bool
deriving DecidableEq, Repr

/-- Modelled from the spec: `recordRequest` of §4.3 (the aggregation logic is
not implemented in the repository; only the schema is). A duplicate
(message, user) pair is a no-op with `created=false`. On creation the two
counters increment in lockstep, `first_request_at` is set on the first
request, `last_request_at` on every request; if `unique_requestors` now
reaches the trigger threshold and `threshold_met` was previously false, the
call sets `threshold_met` and reports `thresholdCrossed=true`. -/
def recordRequest (threshold : Nat) (userId : String) (now : Nat) (s : AggState) :
    RecordRequestResult × AggState :=
  if userId ∈ s.requestors then
    ({ created := false, thresholdCrossed := false }, s)
  else
    let uniq := s.agg.unique_requestors + 1
    let crossed := decide (threshold ≤ uniq) && !s.agg.threshold_met
    ({ created := true, thresholdCrossed := crossed },
     { requestors := userId :: s.requestors,
       agg := { total_requests := s.agg.total_requests + 1,
                unique_requestors := uniq,
                first_request_at := some (s.agg.first_request_at.getD now),
                last_request_at := some now,
                threshold_met := s.agg.threshold_met || decide (threshold ≤ uniq),
                threshold_met_at := if crossed then some now else s.agg.threshold_met_at,
                contributors_notified := s.agg.contributors_notified,
                notified_at := s.agg.notified_at } })

/-- Modelled from the spec: the winner's notification step of §4.3 —
`contributors_notified` is guarded to flip only once, and only once the
threshold has been met, even if the enqueue is retried. Returns whether the
contributor notification was actually enqueued by this call. -/
def notifyContributors (now : Nat) (s : AggState) : Bool × AggState :=
  if s.agg.threshold_met && !s.agg.contributors_notified then
    (true,
     { s with agg := { s.agg with contributors_notified := true, notified_at := some now } })
  else
    (false, s)

/-- Run a sequence of `recordRequest` calls (requestor, time) on one message. -/
def aggRun (threshold : Nat) (s : AggState) : List (String × Nat) → AggState
  | [] => s
  | (u, now) :: rest => aggRun threshold (recordRequest threshold u now s).2 rest

/-- The results returned by a sequence of `recordRequest` calls. -/
def aggResults (threshold : Nat) (s : AggState) : List (String × Nat) → List RecordRequestResult
  | [] => []
  | (u, now) :: rest =>
      (recordRequest threshold u now s).1 ::
        aggResults threshold (recordRequest threshold u now s).2 rest

/-- An operation of the request-aggregation pipeline on one message: a
`recordRequest` call or a contributor-notification step. -/
inductive AggOp
  | record (userId : String) (now : Nat)
  | notify (now : Nat)
deriving DecidableEq, Repr

/-- Apply one aggregation-pipeline operation to the state. -/
def aggStep (threshold : Nat) (s : AggState) : AggOp → AggState
  | .record u now => (recordRequest threshold u now s).2
  | .notify now => (notifyContributors now s).2

/-- Run a sequence of aggregation-pipeline operations. -/
def aggRunOps (threshold : Nat) (s : AggState) : List AggOp → AggState
  | [] => s
  | op :: rest => aggRunOps threshold (aggStep threshold s op) rest

/-- Note lifecycle states (spec §4.4; the `status` string column of
`db/models/open_note.py` with default `"pending"`). -/
inductive NoteStatus
  | pending
  | needs_more_ratings
  | visible
  | hidden
deriving DecidableEq, Repr

/-- One `community_notes` row (`db/models/open_note.py`) together with the
per-note lifecycle state the spec's §4.4 needs: the set of raters (unique by
the one-(note, rater)-pair rule) and the weighted accumulators behind
`visibility_score`. -/
structure OpenNote where
  status : NoteStatus
  helpful_count : Nat
  not_helpful_count : Nat
  total_ratings : Nat
  helpfulness_ratio : ℚ
  is_visible : Bool
  visibility_score : ℚ
  weighted_helpful : ℚ
  weighted_total : ℚ
  raters : List String
deriving DecidableEq, Repr

/-- Column defaults of `community_notes`: status pending, counters 0,
ratio/score 0, not visible, no ratings. -/
def noteInit : OpenNote :=
  { status := .pending, helpful_count := 0, not_helpful_count := 0,
    total_ratings := 0, helpfulness_ratio := 0, is_visible := false,
    visibility_score := 0, weighted_helpful := 0, weighted_total := 0,
    raters := [] }

/-- The configuration of §4.4 the source leaves open: minimum ratings for a
visibility decision, the visibility threshold, and the trust→weight table
(monotone non-decreasing by spec; exact values are configuration). -/
structure RatingConfig where
  minRatingsForDecision : Nat
  visibilityThreshold : ℚ
  ratingWeight : TrustLevel → ℚ

/-- Modelled from the spec: `recordRating` of §4.4 (the lifecycle logic is not
implemented in the repository; only the schema is). A duplicate (note, rater)
pair is rejected as a conflict (`none`). On acceptance: increment the
unweighted counter for the chosen side, accumulate the trust weight into the
weighted sums, recompute `total_ratings`, `helpfulness_ratio` and
`visibility_score`, then re-evaluate visibility: below
`minRatingsForDecision` the note needs more ratings and is not visible;
otherwise it is visible iff `visibility_score ≥ visibilityThreshold`, else
hidden. The visibility re-evaluation is the `decideVisibility` step; the
acceptance path of `recordRating` applies it after updating the counters. -/
def decideVisibility (cfg : RatingConfig) (n : OpenNote) : OpenNote :=
  if n.total_ratings < cfg.minRatingsForDecision then
    { n with status := .needs_more_ratings, is_visible := false }
  else if cfg.visibilityThreshold ≤ n.visibility_score then
    { n with status := .visible, is_visible := true }
  else
    { n with status := .hidden, is_visible := false }

/-- The rating-acceptance path of §4.4, see `decideVisibility` above: reject a
duplicate (note, rater) pair, otherwise update the counters, ratio and
weighted score, then re-evaluate visibility. -/
def recordRating (cfg : RatingConfig) (raterId : String) (helpful : Bool)
    (raterTrust : TrustLevel) (n : OpenNote) : Option OpenNote :=
  if raterId ∈ n.raters then none
  else
    let w := cfg.ratingWeight raterTrust
    let helpful_count := if helpful then n.helpful_count + 1 else n.helpful_count
    let not_helpful_count := if helpful then n.not_helpful_count else n.not_helpful_count + 1
    let total := helpful_count + not_helpful_count
    let ratio : ℚ := (helpful_count : ℚ) / (total : ℚ)
    let wh := n.weighted_helpful + (if helpful then w else 0)
    let wt := n.weighted_total + w
    let score : ℚ := if wt = 0 then 0 else wh / wt
    some (decideVisibility cfg
      { status := n.status, helpful_count := helpful_count,
        not_helpful_count := not_helpful_count, total_ratings := total,
        helpfulness_ratio := ratio, is_visible := n.is_visible,
        visibility_score := score, weighted_helpful := wh,
        weighted_total := wt, raters := raterId :: n.raters })

/-- Run a sequence of rating attempts (rater, helpful, trust) on one note;
a rejected duplicate leaves the note unchanged. -/
def runRatings (cfg : RatingConfig) (n : OpenNote) :
    List (String × Bool × TrustLevel) → OpenNote
  | [] => n
  | (r, h, t) :: rest => runRatings cfg ((recordRating cfg r h t n).getD n) rest

/-- Notification delivery states (spec §4.6; the `status` string column of
`db/models/notification_queue.py` with default `"pending"`). -/
inductive NotifStatus
  | pending
  | batched
  | sent
  | failed
deriving DecidableEq, Repr

/-- One `notification_queue` row (`db/models/notification_queue.py`), the
fields the dispatch/retry discipline touches. -/
structure NotificationEntry where
  status : NotifStatus
  attempts : Nat
  max_attempts : Nat
  priority : Nat
  scheduled_for : Option Nat
deriving DecidableEq, Repr

/-- Column defaults of `notification_queue`: status pending, attempts 0,
max_attempts 3, priority 2. -/
def notifInit : NotificationEntry :=
  { status := .pending, attempts := 0, max_attempts := 3, priority := 2,
    scheduled_for := none }

/-- Modelled from the spec: one dispatch attempt of §4.6 (the dispatcher is
not implemented in the repository; only the schema is). Entries already
`sent` or `failed` are never dispatched again, so an attempt on them is a
no-op. On success the entry is marked `sent`; on failure `attempts` is
incremented and, if still below `max_attempts`, the entry is rescheduled with
exponential backoff (`delay = base * 2 ^ attempts`, capped at `maxDelay`),
else it is marked `failed` permanently. -/
def dispatchAttempt (base maxDelay now : Nat) (success : Bool)
    (e : NotificationEntry) : NotificationEntry :=
  if e.status = .sent ∨ e.status = .failed then e
  else if success then { e with status := .sent }
  else
    let attempts := e.attempts + 1
    if attempts < e.max_attempts then
      { e with attempts := attempts, status := .pending,
               scheduled_for := some (now + min (base * 2 ^ attempts) maxDelay) }
    else
      { e with attempts := attempts, status := .failed }

/-- Run a sequence of dispatch attempts (success, time) on one entry. -/
def dispatchRun (base maxDelay : Nat) (e : NotificationEntry) :
    List (Bool × Nat) → NotificationEntry
  | [] => e
  | (suc, now) :: rest => dispatchRun base maxDelay (dispatchAttempt base maxDelay now suc e) rest

/-- Invariant tying a message's aggregation row to its `note_requests` rows:
`unique_requestors` counts the distinct requestors, and `threshold_met`
records exactly whether the trigger threshold has been reached. -/
def AggInv (threshold : Nat) (s : AggState) : Prop :=
  s.agg.unique_requestors = s.requestors.length ∧
  (s.agg.threshold_met = true ↔ threshold ≤ s.agg.unique_requestors)

/-- What C1 asserts of a sequence of `recordRequest` calls on one message:
`threshold_met` never returns to false; the number of calls reporting
`thresholdCrossed=true` is exactly one if the threshold is ever met and zero
otherwise (so every call after the crossing reports false); and a call
reports `thresholdCrossed=true` exactly when its insertion moves
`unique_requestors` from below the threshold to at or above it. -/
def ThresholdCrossingSpec (threshold : Nat) (calls : List (String × Nat)) : Prop :=
  (∀ l₁ l₂, calls = l₁ ++ l₂ →
      (aggRun threshold aggInit l₁).agg.threshold_met = true →
      (aggRun threshold aggInit calls).agg.threshold_met = true) ∧
  ((aggResults threshold aggInit calls).countP (fun r => r.thresholdCrossed) =
      ((aggRun threshold aggInit calls).agg.threshold_met).toNat) ∧
  (∀ l₁ u now l₂, calls = l₁ ++ (u, now) :: l₂ →
      ((recordRequest threshold u now (aggRun threshold aggInit l₁)).1.thresholdCrossed = true ↔
        (aggRun threshold aggInit l₁).agg.unique_requestors < threshold ∧
        threshold ≤
          ((recordRequest threshold u now (aggRun threshold aggInit l₁)).2).agg.unique_requestors))

/-- What C6 asserts of a sequence of aggregation-pipeline operations on one
message: whenever `contributors_notified` holds, `threshold_met` holds; once
`contributors_notified` holds it never resets; and the only step that can
flip it is a notification step whose pre-state already has
`threshold_met=true` — so the flip happens strictly after `threshold_met`
became true, and (by monotonicity) at most once. -/
def ContributorsNotifiedSpec (threshold : Nat) (ops : List AggOp) : Prop :=
  ((aggRunOps threshold aggInit ops).agg.contributors_notified = true →
      (aggRunOps threshold aggInit ops).agg.threshold_met = true) ∧
  (∀ l₁ l₂, ops = l₁ ++ l₂ →
      (aggRunOps threshold aggInit l₁).agg.contributors_notified = true →
      (aggRunOps threshold aggInit ops).agg.contributors_notified = true) ∧
  (∀ l₁ op l₂, ops = l₁ ++ op :: l₂ →
      (aggRunOps threshold aggInit l₁).agg.contributors_notified = false →
      (aggStep threshold (aggRunOps threshold aggInit l₁) op).agg.contributors_notified = true →
      (aggRunOps threshold aggInit l₁).agg.threshold_met = true ∧
      ∃ now, op = AggOp.notify now)

/-- The counter/ratio invariant C2 asserts of an `OpenNote`:
`total_ratings = helpful_count + not_helpful_count`, `helpfulness_ratio` is
`helpful_count / total_ratings` when there are ratings and 0 otherwise, and
consequently the ratio lies in `[0, 1]`. -/
def NoteCounterInv (n : OpenNote) : Prop :=
  n.total_ratings = n.helpful_count + n.not_helpful_count ∧
  n.helpfulness_ratio =
    (if 0 < n.total_ratings then (n.helpful_count : ℚ) / (n.total_ratings : ℚ) else 0) ∧
  0 ≤ n.helpfulness_ratio ∧ n.helpfulness_ratio ≤ 1

/-- The configuration of C4's scenario: `minRatingsForDecision = 5`,
`visibilityThreshold = 0.6`, all raters weighted equally. -/
def scenarioConfig : RatingConfig :=
  { minRatingsForDecision := 5, visibilityThreshold := 3 / 5,
    ratingWeight := fun _ => 1 }

/-- C4's scenario ratings: ten distinct raters, 7 helpful and 3 not helpful. -/
def scenarioRatings : List (String × Bool × TrustLevel) :=
  [("r1", true, .contributor), ("r2", true, .contributor),
   ("r3", false, .contributor), ("r4", true, .contributor),
   ("r5", true, .contributor), ("r6", false, .contributor),
   ("r7", true, .contributor), ("r8", true, .contributor),
   ("r9", false, .contributor), ("r10", true, .contributor)]

/-- The note of C4's scenario after the ten ratings. -/
def scenarioNote : OpenNote := runRatings scenarioConfig noteInit scenarioRatings

/-- A concrete trivial adapter instance, used to evaluate the scoring control
flow on concrete inputs. -/
def trivialAdapter : ScoringAdapterModel Nat Unit Unit :=
  { transform_notes_to_dataframe := fun _ => ()
    transform_ratings_to_dataframe := fun _ => ()
    transform_enrollment_to_dataframe := fun _ => ()
    transform_status_to_dataframe := fun _ => ()
    score := fun _ _ _ _ => .ok () }

/-- What C9 asserts of a `score_notes` call on the given inputs: the service
raises `ValueError`, the result is independent of the adapter (so no
transformation or scoring work decided it), and the endpoint answers 400. -/
def ScoringEmptyInputSpec {Row DF R : Type} (A : ScoringAdapterModel Row DF R)
    (notes ratings enrollment : List Row) (status : Option (List Row)) : Prop :=
  (∃ m, score_notes A notes ratings enrollment status = .error (.valueError m)) ∧
  (∀ A2 : ScoringAdapterModel Row DF R,
      score_notes A notes ratings enrollment status =
        score_notes A2 notes ratings enrollment status) ∧
  (score_notes_endpoint A notes ratings enrollment status).status_code = 400

/-- C9: if any of the three input lists of `ScoringService.score_notes` is
empty, the call raises `ValueError` before any dataframe transformation or
scoring work (the outcome does not depend on the adapter at all), and the
`/score` endpoint maps that `ValueError` to an HTTP 400 response. -/
theorem score_notes_empty_input_rejected {Row DF R : Type}
    (A : ScoringAdapterModel Row DF R)
    (notes ratings enrollment : List Row) (status : Option (List Row))
    (h : notes = [] ∨ ratings = [] ∨ enrollment = []) :
    ScoringEmptyInputSpec A notes ratings enrollment status := by
  have hsc : ∀ A2 : ScoringAdapterModel Row DF R,
      ∃ m, score_notes A2 notes ratings enrollment status = .error (.valueError m) := by
    intro A2
    rcases h with h | h | h <;> subst h
    · exact ⟨"Notes list cannot be empty", by simp [score_notes]⟩
    · by_cases hn : notes.isEmpty
      · exact ⟨"Notes list cannot be empty", by simp [score_notes, hn]⟩
      · exact ⟨"Ratings list cannot be empty", by simp [score_notes, hn]⟩
    · by_cases hn : notes.isEmpty
      · exact ⟨"Notes list cannot be empty", by simp [score_notes, hn]⟩
      · by_cases hr : ratings.isEmpty
        · exact ⟨"Ratings list cannot be empty", by simp [score_notes, hn, hr]⟩
        · exact ⟨"Enrollment list cannot be empty", by simp [score_notes, hn, hr]⟩
  refine ⟨hsc A, ?_, ?_⟩
  · intro A2
    obtain ⟨m, hm⟩ := hsc A
    obtain ⟨m2, hm2⟩ := hsc A2
    have : m = m2 := by
      rcases h with h | h | h <;> subst h <;>
        simp [score_notes] at hm hm2 <;> simp_all [score_notes]
    rw [hm, hm2, this]
  · obtain ⟨m, hm⟩ := hsc A
    simp [score_notes_endpoint, hm]

/-- Witness for C9 at a concrete empty-notes input. -/
theorem score_notes_empty_input_rejected_witness :
    (([] : List Nat) = [] ∨ [1] = ([] : List Nat) ∨ [2] = ([] : List Nat)) ∧
    ScoringEmptyInputSpec trivialAdapter [] [1] [2] none :=
  ⟨Or.inl rfl,
   score_notes_empty_input_rejected trivialAdapter [] [1] [2] none (Or.inl rfl)⟩

/-- C8: `get_scopes_for_role` maps each of the five trust levels to its fixed
scope list (admin holding every scope value), and any unrecognized level
string to the empty list — deny by default. Determinism and totality are
inherent in it being a function. -/
theorem get_scopes_for_role_total_deny_by_default :
    get_scopes_for_role "newcomer" =
      ["notes:read", "requests:write", "users:read", "users:write_self"] ∧
    get_scopes_for_role "contributor" =
      ["notes:read", "notes:write", "notes:delete_own", "requests:write",
       "ratings:write", "users:read", "users:write_self"] ∧
    get_scopes_for_role "trusted" =
      ["notes:read", "notes:write", "notes:delete_own", "requests:write",
       "ratings:write", "users:read", "users:write_self", "analytics:read"] ∧
    get_scopes_for_role "moderator" =
      ["notes:read", "notes:write", "notes:delete_own", "notes:delete_any",
       "requests:write", "ratings:write", "users:read", "users:write_self",
       "moderation:read", "moderation:write", "analytics:read"] ∧
    get_scopes_for_role "admin" = allScopes.map Scope.value ∧
    ∀ s : String,
      s ∉ (["newcomer", "contributor", "trusted", "moderator", "admin"] : List String) →
      get_scopes_for_role s = [] := by
  refine ⟨rfl, rfl, rfl, rfl, rfl, ?_⟩
  intro s hs
  simp only [List.mem_cons, List.not_mem_nil, or_false, not_or] at hs
  obtain ⟨h1, h2, h3, h4, h5⟩ := hs
  simp [get_scopes_for_role, parseTrustLevel, h1, h2, h3, h4, h5]

/-- Witness for C8's deny-by-default branch at a concrete unknown level. -/
theorem get_scopes_for_role_unknown_witness :
    "wizard" ∉ (["newcomer", "contributor", "trusted", "moderator", "admin"] : List String) ∧
    get_scopes_for_role "wizard" = [] :=
  ⟨by decide,
   get_scopes_for_role_total_deny_by_default.2.2.2.2.2 "wizard" (by decide)⟩

/-- C10: the scope sets of `ROLE_SCOPES` grow monotonically along the trust
order newcomer ≤ contributor ≤ trusted ≤ moderator ≤ admin, and admin holds
every scope of the `Scope` enumeration. -/
theorem ROLE_SCOPES_monotone :
    ROLE_SCOPES .newcomer ⊆ ROLE_SCOPES .contributor ∧
    ROLE_SCOPES .contributor ⊆ ROLE_SCOPES .trusted ∧
    ROLE_SCOPES .trusted ⊆ ROLE_SCOPES .moderator ∧
    ROLE_SCOPES .moderator ⊆ ROLE_SCOPES .admin ∧
    ∀ s : Scope, s ∈ ROLE_SCOPES .admin := by
  refine ⟨?_, ?_, ?_, ?_, ?_⟩ <;> decide

/-- Calling `recordRequest` never clears `threshold_met`. -/
theorem recordRequest_met_mono (threshold : Nat) (u : String) (now : Nat)
    (s : AggState) (h : s.agg.threshold_met = true) :
    ((recordRequest threshold u now s).2).agg.threshold_met = true := by
  unfold recordRequest
  split
  · exact h
  · simp [h]

/-- Along any run of `recordRequest` calls, `threshold_met` stays true. -/
theorem aggRun_met_mono (threshold : Nat) (s : AggState)
    (l : List (String × Nat)) (h : s.agg.threshold_met = true) :
    (aggRun threshold s l).agg.threshold_met = true := by
  induction l generalizing s with
  | nil => exact h
  | cons c rest ih =>
      obtain ⟨u, now⟩ := c
      exact ih _ (recordRequest_met_mono threshold u now s h)

/-- A `recordRequest` call reports a crossing exactly when it moves
`threshold_met` from false to true. -/
theorem recordRequest_crossed_eq (threshold : Nat) (u : String) (now : Nat)
    (s : AggState) :
    (recordRequest threshold u now s).1.thresholdCrossed =
      (((recordRequest threshold u now s).2).agg.threshold_met &&
        !s.agg.threshold_met) := by
  unfold recordRequest
  split
  · simp
  · cases h : s.agg.threshold_met <;> simp [h]

/-- Splitting a run of `recordRequest` calls at any point. -/
theorem aggRun_append (threshold : Nat) (s : AggState)
    (l₁ l₂ : List (String × Nat)) :
    aggRun threshold s (l₁ ++ l₂) = aggRun threshold (aggRun threshold s l₁) l₂ := by
  induction l₁ generalizing s with
  | nil => rfl
  | cons c rest ih =>
      obtain ⟨u, now⟩ := c
      simpa [aggRun] using ih (recordRequest threshold u now s).2

/-- The number of crossing reports in a run counts whether `threshold_met`
flipped between the initial and the final state. -/
theorem aggResults_countP (threshold : Nat) (s : AggState)
    (l : List (String × Nat)) :
    (aggResults threshold s l).countP (fun r => r.thresholdCrossed) =
      ((aggRun threshold s l).agg.threshold_met && !s.agg.threshold_met).toNat := by
  induction l generalizing s with
  | nil => simp [aggResults, aggRun]
  | cons c rest ih =>
      obtain ⟨u, now⟩ := c
      rw [aggResults, aggRun, List.countP_cons]
      rw [ih (recordRequest threshold u now s).2]
      rw [recordRequest_crossed_eq]
      cases hm : s.agg.threshold_met
      · cases hm2 : ((recordRequest threshold u now s).2).agg.threshold_met
        · simp [hm, hm2]
        · have hrun := aggRun_met_mono threshold _ rest hm2
          simp [hm, hm2, hrun]
      · have hm2 := recordRequest_met_mono threshold u now s hm
        have hrun := aggRun_met_mono threshold _ rest hm2
        simp [hm, hm2, hrun]

/-- Calling `recordRequest` preserves the aggregation invariant. -/
theorem recordRequest_inv (threshold : Nat) (u : String) (now : Nat)
    (s : AggState) (h : AggInv threshold s) :
    AggInv threshold (recordRequest threshold u now s).2 := by
  obtain ⟨h1, h2⟩ := h
  unfold recordRequest
  split
  · exact ⟨h1, h2⟩
  · refine ⟨by simp [h1], ?_⟩
    cases hm : s.agg.threshold_met
    · simp
    · have ht := h2.mp hm
      simp
      omega

/-- Any run of `recordRequest` calls preserves the aggregation invariant. -/
theorem aggRun_inv (threshold : Nat) (s : AggState)
    (l : List (String × Nat)) (h : AggInv threshold s) :
    AggInv threshold (aggRun threshold s l) := by
  induction l generalizing s with
  | nil => exact h
  | cons c rest ih =>
      obtain ⟨u, now⟩ := c
      exact ih _ (recordRequest_inv threshold u now s h)

/-- The initial state satisfies the aggregation invariant for any positive
threshold. -/
theorem aggInv_init (threshold : Nat) (ht : 1 ≤ threshold) :
    AggInv threshold aggInit := by
  refine ⟨rfl, ?_⟩
  simp [aggInit, aggregationInit]
  omega

/-- C1: along every sequence of `recordRequest` calls on a message,
`threshold_met` moves from false to true at most once and never back;
exactly one call — the one whose inserted request first brings
`unique_requestors` up to the trigger threshold — reports
`thresholdCrossed=true`, and every other call (in particular every later
call) reports false. -/
theorem requestAggregation_threshold_met_once (threshold : Nat)
    (ht : 1 ≤ threshold) (calls : List (String × Nat)) :
    ThresholdCrossingSpec threshold calls := by
  refine ⟨?_, ?_, ?_⟩
  · intro l₁ l₂ hsplit hmet
    rw [hsplit, aggRun_append]
    exact aggRun_met_mono threshold _ l₂ hmet
  · rw [aggResults_countP]
    simp [aggInit, aggregationInit]
  · intro l₁ u now l₂ hsplit
    have hinv : AggInv threshold (aggRun threshold aggInit l₁) :=
      aggRun_inv threshold aggInit l₁ (aggInv_init threshold ht)
    obtain ⟨hlen, hiff⟩ := hinv
    set s := aggRun threshold aggInit l₁ with hs
    unfold recordRequest
    split
    · simp only
      constructor
      · intro hfalse
        exact absurd hfalse (by simp)
      · intro ⟨hlt, hge⟩
        omega
    · simp only
      cases hm : s.agg.threshold_met
      · have hnotle : ¬ threshold ≤ s.agg.unique_requestors := by
          intro hle
          exact absurd (hiff.mpr hle) (by simp [hm])
        simp [hm]
        omega
      · have hle := hiff.mp hm
        simp [hm]
        omega

/-- Witness for C1: threshold 3 with four distinct requestors. -/
theorem requestAggregation_threshold_met_once_witness :
    1 ≤ 3 ∧ ThresholdCrossingSpec 3 [("a", 0), ("b", 1), ("c", 2), ("d", 3)] :=
  ⟨by decide,
   requestAggregation_threshold_met_once 3 (by decide)
     [("a", 0), ("b", 1), ("c", 2), ("d", 3)]⟩

/-- Calling `recordRequest` never touches `contributors_notified`. -/
theorem recordRequest_notified_eq (threshold : Nat) (u : String) (now : Nat)
    (s : AggState) :
    ((recordRequest threshold u now s).2).agg.contributors_notified =
      s.agg.contributors_notified := by
  unfold recordRequest
  split <;> rfl

/-- The notification step never touches `threshold_met`. -/
theorem notifyContributors_met_eq (now : Nat) (s : AggState) :
    ((notifyContributors now s).2).agg.threshold_met = s.agg.threshold_met := by
  unfold notifyContributors
  split <;> rfl

/-- No pipeline step clears `threshold_met`. -/
theorem aggStep_met_mono (threshold : Nat) (s : AggState) (op : AggOp)
    (h : s.agg.threshold_met = true) :
    (aggStep threshold s op).agg.threshold_met = true := by
  cases op with
  | record u now => exact recordRequest_met_mono threshold u now s h
  | notify now => rw [aggStep, notifyContributors_met_eq]; exact h

/-- No pipeline step clears `contributors_notified`. -/
theorem aggStep_notified_mono (threshold : Nat) (s : AggState) (op : AggOp)
    (h : s.agg.contributors_notified = true) :
    (aggStep threshold s op).agg.contributors_notified = true := by
  cases op with
  | record u now => rw [aggStep, recordRequest_notified_eq]; exact h
  | notify now =>
      rw [aggStep]
      unfold notifyContributors
      split
      · simp
      · exact h

/-- Along any run of pipeline operations, `contributors_notified` stays true. -/
theorem aggRunOps_notified_mono (threshold : Nat) (s : AggState)
    (l : List AggOp) (h : s.agg.contributors_notified = true) :
    (aggRunOps threshold s l).agg.contributors_notified = true := by
  induction l generalizing s with
  | nil => exact h
  | cons op rest ih => exact ih _ (aggStep_notified_mono threshold s op h)

/-- Every pipeline step preserves "notified implies threshold met". -/
theorem aggStep_notified_implies_met (threshold : Nat) (s : AggState) (op : AggOp)
    (h : s.agg.contributors_notified = true → s.agg.threshold_met = true) :
    (aggStep threshold s op).agg.contributors_notified = true →
      (aggStep threshold s op).agg.threshold_met = true := by
  cases op with
  | record u now =>
      rw [aggStep, recordRequest_notified_eq]
      intro hn
      exact recordRequest_met_mono threshold u now s (h hn)
  | notify now =>
      rw [aggStep, notifyContributors_met_eq]
      unfold notifyContributors
      split
      · next hguard =>
          intro _
          simp only [Bool.and_eq_true] at hguard
          exact hguard.1
      · exact h

/-- Along any run, "notified implies threshold met" is invariant. -/
theorem aggRunOps_notified_implies_met (threshold : Nat) (s : AggState)
    (l : List AggOp)
    (h : s.agg.contributors_notified = true → s.agg.threshold_met = true) :
    (aggRunOps threshold s l).agg.contributors_notified = true →
      (aggRunOps threshold s l).agg.threshold_met = true := by
  induction l generalizing s with
  | nil => exact h
  | cons op rest ih =>
      exact ih _ (aggStep_notified_implies_met threshold s op h)

/-- Splitting a run of pipeline operations at any point. -/
theorem aggRunOps_append (threshold : Nat) (s : AggState) (l₁ l₂ : List AggOp) :
    aggRunOps threshold s (l₁ ++ l₂) =
      aggRunOps threshold (aggRunOps threshold s l₁) l₂ := by
  induction l₁ generalizing s with
  | nil => rfl
  | cons op rest ih => simpa [aggRunOps] using ih (aggStep threshold s op)

/-- Only a notification step, taken in a state where `threshold_met` already
holds, can flip `contributors_notified`. -/
theorem aggStep_notified_flip (threshold : Nat) (s : AggState) (op : AggOp)
    (hpre : s.agg.contributors_notified = false)
    (hpost : (aggStep threshold s op).agg.contributors_notified = true) :
    s.agg.threshold_met = true ∧ ∃ now, op = AggOp.notify now := by
  cases op with
  | record u now =>
      rw [aggStep, recordRequest_notified_eq] at hpost
      rw [hpre] at hpost
      exact absurd hpost (by simp)
  | notify now =>
      rw [aggStep] at hpost
      unfold notifyContributors at hpost
      refine ⟨?_, now, rfl⟩
      rcases hguard : (s.agg.threshold_met && !s.agg.contributors_notified) with _ | _
      · rw [hguard] at hpost
        simp at hpost
        rw [hpre] at hpost
        exact absurd hpost (by simp)
      · simp only [Bool.and_eq_true] at hguard
        exact hguard.1

/-- C6: for every message and every sequence of aggregation-pipeline
operations, `contributors_notified` becomes true only strictly after
`threshold_met` has become true, flips from false to true at most once, and
is never reset to false. -/
theorem requestAggregation_contributors_notified_after (threshold : Nat)
    (ops : List AggOp) : ContributorsNotifiedSpec threshold ops := by
  refine ⟨?_, ?_, ?_⟩
  · exact aggRunOps_notified_implies_met threshold aggInit ops (by intro h; cases h)
  · intro l₁ l₂ hsplit hnot
    rw [hsplit, aggRunOps_append]
    exact aggRunOps_notified_mono threshold _ l₂ hnot
  · intro l₁ op l₂ hsplit hpre hpost
    exact aggStep_notified_flip threshold _ op hpre hpost

/-- Witness for C6: a concrete threshold and operation sequence. -/
theorem requestAggregation_contributors_notified_after_witness :
    ContributorsNotifiedSpec 2
      [AggOp.record "a" 0, AggOp.record "b" 1, AggOp.notify 2, AggOp.notify 3] :=
  requestAggregation_contributors_notified_after 2
    [AggOp.record "a" 0, AggOp.record "b" 1, AggOp.notify 2, AggOp.notify 3]

/-- Insertions keep the per-message requestor rows free of duplicates, as the
`uq_message_requestor` constraint demands. -/
theorem recordRequest_nodup (threshold : Nat) (u : String) (now : Nat)
    (s : AggState) (h : s.requestors.Nodup) :
    ((recordRequest threshold u now s).2).requestors.Nodup := by
  unfold recordRequest
  split
  · exact h
  · next hmem => exact List.nodup_cons.mpr ⟨hmem, h⟩

/-- Any run of `recordRequest` calls keeps the requestor rows duplicate-free. -/
theorem aggRun_nodup (threshold : Nat) (s : AggState)
    (l : List (String × Nat)) (h : s.requestors.Nodup) :
    (aggRun threshold s l).requestors.Nodup := by
  induction l generalizing s with
  | nil => exact h
  | cons c rest ih =>
      obtain ⟨u, now⟩ := c
      exact ih _ (recordRequest_nodup threshold u now s h)

/-- C7: a `recordRequest` call for a (message, user) pair that already has a
`NoteRequest` row is a no-op: it returns `created=false` (and no crossing),
raises no error, leaves the whole state — in particular `total_requests`,
`unique_requestors` and the request rows — unchanged; and runs from a fresh
message keep the requestor rows unique, as `uq_message_requestor` demands. -/
theorem recordRequest_duplicate_noop (threshold : Nat) (u : String) (now : Nat)
    (s : AggState) (h : u ∈ s.requestors) :
    recordRequest threshold u now s =
      ({ created := false, thresholdCrossed := false }, s) ∧
    ((recordRequest threshold u now s).2).agg.total_requests = s.agg.total_requests ∧
    ((recordRequest threshold u now s).2).agg.unique_requestors = s.agg.unique_requestors ∧
    ((recordRequest threshold u now s).2).requestors = s.requestors ∧
    (∀ calls : List (String × Nat),
        (aggRun threshold aggInit calls).requestors.Nodup) := by
  have heq : recordRequest threshold u now s =
      ({ created := false, thresholdCrossed := false }, s) := by
    unfold recordRequest
    simp [h]
  refine ⟨heq, ?_, ?_, ?_, ?_⟩
  · rw [heq]
  · rw [heq]
  · rw [heq]
  · intro calls
    exact aggRun_nodup threshold aggInit calls (by simp [aggInit])

/-- Witness for C7: a duplicate request by the only requestor so far. -/
theorem recordRequest_duplicate_noop_witness :
    "a" ∈ (aggRun 3 aggInit [("a", 0)]).requestors ∧
    recordRequest 3 "a" 5 (aggRun 3 aggInit [("a", 0)]) =
      ({ created := false, thresholdCrossed := false },
       aggRun 3 aggInit [("a", 0)]) :=
  ⟨by decide,
   (recordRequest_duplicate_noop 3 "a" 5 (aggRun 3 aggInit [("a", 0)])
     (by decide)).1⟩

/-- The visibility re-evaluation only touches `status` and `is_visible`. -/
theorem decideVisibility_counters (cfg : RatingConfig) (n : OpenNote) :
    (decideVisibility cfg n).helpful_count = n.helpful_count ∧
    (decideVisibility cfg n).not_helpful_count = n.not_helpful_count ∧
    (decideVisibility cfg n).total_ratings = n.total_ratings ∧
    (decideVisibility cfg n).helpfulness_ratio = n.helpfulness_ratio ∧
    (decideVisibility cfg n).visibility_score = n.visibility_score ∧
    (decideVisibility cfg n).raters = n.raters := by
  unfold decideVisibility
  split
  · exact ⟨rfl, rfl, rfl, rfl, rfl, rfl⟩
  · split
    · exact ⟨rfl, rfl, rfl, rfl, rfl, rfl⟩
    · exact ⟨rfl, rfl, rfl, rfl, rfl, rfl⟩

/-- The counter/ratio invariant is insensitive to the visibility decision. -/
theorem NoteCounterInv_decideVisibility (cfg : RatingConfig) (n : OpenNote)
    (h : NoteCounterInv n) : NoteCounterInv (decideVisibility cfg n) := by
  obtain ⟨h1, h2, h3, h4⟩ := h
  obtain ⟨e1, e2, e3, e4, _, _⟩ := decideVisibility_counters cfg n
  exact ⟨by rw [e1, e2, e3, h1], by rw [e1, e3, e4, h2], by rw [e4]; exact h3,
         by rw [e4]; exact h4⟩

/-- The note produced by the acceptance path of `recordRating` before the
visibility decision satisfies the counter/ratio invariant, for any one
incremented side. -/
theorem noteCounterInv_mk (st : NoteStatus) (hc nhc : Nat) (vis : Bool)
    (vs wh wt : ℚ) (rl : List String) (hpos : 0 < hc + nhc) :
    NoteCounterInv
      { status := st, helpful_count := hc, not_helpful_count := nhc,
        total_ratings := hc + nhc,
        helpfulness_ratio := (hc : ℚ) / ((hc + nhc : Nat) : ℚ),
        is_visible := vis, visibility_score := vs, weighted_helpful := wh,
        weighted_total := wt, raters := rl } := by
  refine ⟨rfl, ?_, ?_, ?_⟩
  · show (hc : ℚ) / ((hc + nhc : Nat) : ℚ) =
      if 0 < hc + nhc then (hc : ℚ) / ((hc + nhc : Nat) : ℚ) else 0
    rw [if_pos hpos]
  · show (0 : ℚ) ≤ (hc : ℚ) / ((hc + nhc : Nat) : ℚ)
    positivity
  · show (hc : ℚ) / ((hc + nhc : Nat) : ℚ) ≤ 1
    rw [div_le_one (by exact_mod_cast hpos)]
    exact_mod_cast Nat.le_add_right hc nhc

/-- A rating attempt (accepted or rejected) preserves the counter/ratio
invariant of an `OpenNote`. -/
theorem recordRating_preserves_inv (cfg : RatingConfig) (r : String) (hb : Bool)
    (t : TrustLevel) (n : OpenNote) (h : NoteCounterInv n) :
    NoteCounterInv ((recordRating cfg r hb t n).getD n) := by
  unfold recordRating
  split
  · simpa using h
  · simp only [Option.getD_some]
    apply NoteCounterInv_decideVisibility
    cases hb
    · exact noteCounterInv_mk _ _ _ _ _ _ _ _ (by simp)
    · exact noteCounterInv_mk _ _ _ _ _ _ _ _ (by simp)

/-- C2: every `OpenNote` state reachable from a fresh note by a sequence of
rating attempts satisfies `total_ratings = helpful_count + not_helpful_count`
and `helpfulness_ratio = helpful_count / total_ratings` when there are
ratings (0 otherwise), so `0 ≤ helpfulness_ratio ≤ 1` always holds. -/
theorem openNote_ratio_invariant (cfg : RatingConfig)
    (seq : List (String × Bool × TrustLevel)) :
    NoteCounterInv (runRatings cfg noteInit seq) := by
  have hinit : NoteCounterInv noteInit := by
    refine ⟨rfl, by norm_num [noteInit], by norm_num [noteInit], by norm_num [noteInit]⟩
  suffices hgen : ∀ (n : OpenNote) (l : List (String × Bool × TrustLevel)),
      NoteCounterInv n → NoteCounterInv (runRatings cfg n l) by
    exact hgen noteInit seq hinit
  intro n l
  induction l generalizing n with
  | nil => exact fun h => h
  | cons c rest ih =>
      obtain ⟨r, hb, t⟩ := c
      intro h
      exact ih _ (recordRating_preserves_inv cfg r hb t n h)

/-- Witness for C2 at the concrete scenario configuration and ratings. -/
theorem openNote_ratio_invariant_witness :
    NoteCounterInv (runRatings scenarioConfig noteInit scenarioRatings) :=
  openNote_ratio_invariant scenarioConfig scenarioRatings

/-- Once there are enough ratings for a decision, the visibility
re-evaluation yields `visible`/`is_visible=true` exactly when the visibility
score reaches the threshold, and `hidden`/`is_visible=false` otherwise. -/
theorem decideVisibility_spec (cfg : RatingConfig) (n : OpenNote)
    (hmin : cfg.minRatingsForDecision ≤ (decideVisibility cfg n).total_ratings) :
    (((decideVisibility cfg n).status = NoteStatus.visible ∧
        (decideVisibility cfg n).is_visible = true) ↔
      cfg.visibilityThreshold ≤ (decideVisibility cfg n).visibility_score) ∧
    (¬ cfg.visibilityThreshold ≤ (decideVisibility cfg n).visibility_score →
      (decideVisibility cfg n).status = NoteStatus.hidden ∧
      (decideVisibility cfg n).is_visible = false) := by
  rw [(decideVisibility_counters cfg n).2.2.1] at hmin
  unfold decideVisibility
  split
  · next hlt => omega
  · split
    · next hge =>
        refine ⟨by simp [hge], ?_⟩
        intro hc
        exact absurd hge hc
    · next hnge =>
        refine ⟨?_, ?_⟩
        · constructor
          · intro ⟨hst, _⟩
            cases hst
          · intro hc
            exact absurd hc hnge
        · intro _
          exact ⟨rfl, rfl⟩

/-- C4: once a note has at least `minRatingsForDecision` ratings, every
accepted `recordRating` call re-evaluates visibility: the result is
`visible` with `is_visible=true` exactly when
`visibility_score ≥ visibilityThreshold`, and `hidden` with
`is_visible=false` otherwise; in the concrete scenario
(`minRatingsForDecision=5`, `visibilityThreshold=0.6`, 7 helpful and 3
not-helpful ratings) the note ends with `helpfulness_ratio=0.7`,
status `visible` and `is_visible=true`. -/
theorem openNote_visibility_decision :
    (∀ (cfg : RatingConfig) (r : String) (hb : Bool) (t : TrustLevel)
        (n n' : OpenNote),
        recordRating cfg r hb t n = some n' →
        cfg.minRatingsForDecision ≤ n'.total_ratings →
        ((n'.status = NoteStatus.visible ∧ n'.is_visible = true) ↔
          cfg.visibilityThreshold ≤ n'.visibility_score) ∧
        (¬ cfg.visibilityThreshold ≤ n'.visibility_score →
          n'.status = NoteStatus.hidden ∧ n'.is_visible = false)) ∧
    (scenarioNote.helpfulness_ratio = 7 / 10 ∧
     scenarioNote.status = NoteStatus.visible ∧
     scenarioNote.is_visible = true) := by
  constructor
  · intro cfg r hb t n n' hsome hmin
    unfold recordRating at hsome
    split at hsome
    · exact absurd hsome (by simp)
    · have hn' := (Option.some_inj.mp hsome).symm
      subst hn'
      exact decideVisibility_spec cfg _ hmin
  · refine ⟨by with_unfolding_all rfl, by with_unfolding_all rfl,
      by with_unfolding_all rfl⟩

/-- A single rate-limiter check never pushes `count` above the limit. -/
theorem rlCheck_count_le (limit windowDur now : Nat) (s : RateLimiting)
    (h : s.count ≤ limit) : ((rlCheck limit windowDur now s).2).count ≤ limit := by
  unfold rlCheck
  split <;> dsimp only <;> split <;> simp_all <;> omega

/-- Any run of rate-limiter checks keeps `count` at or below the limit. -/
theorem rlRun_count_le (limit windowDur : Nat) (s : RateLimiting)
    (times : List Nat) (h : s.count ≤ limit) :
    (rlRun limit windowDur s times).count ≤ limit := by
  induction times generalizing s with
  | nil => exact h
  | cons now rest ih => exact ih _ (rlCheck_count_le limit windowDur now s h)

/-- C3: the rate limiter never lets `count` exceed the configured limit — the
quotas being newcomer 5 / contributor 10 / trusted 20 per day and 100 per
hour for everyone, as in `config.py`; inside a window a check that observes
`count ≥ limit` denies and leaves the record unchanged, while an allowed
check increments `count` and reports `remaining = limit - count` computed
after the increment. -/
theorem rateLimiter_count_bounded :
    (limitFor TrustLevel.newcomer LimitKind.requestsPerDay = some 5 ∧
     limitFor TrustLevel.contributor LimitKind.requestsPerDay = some 10 ∧
     limitFor TrustLevel.trusted LimitKind.requestsPerDay = some 20 ∧
     ∀ t : TrustLevel, limitFor t LimitKind.generalHourly = some 100) ∧
    (∀ limit windowDur now (s : RateLimiting), s.count ≤ limit →
        ((rlCheck limit windowDur now s).2).count ≤ limit) ∧
    (∀ limit windowDur (s : RateLimiting) (times : List Nat), s.count ≤ limit →
        (rlRun limit windowDur s times).count ≤ limit) ∧
    (∀ limit windowDur now (s : RateLimiting), now < s.reset_at → limit ≤ s.count →
        rlCheck limit windowDur now s =
          ({ allowed := false, remaining := limit - s.count, resetAt := s.reset_at }, s)) ∧
    (∀ limit windowDur now (s : RateLimiting), now < s.reset_at → s.count < limit →
        rlCheck limit windowDur now s =
          ({ allowed := true, remaining := limit - (s.count + 1),
             resetAt := s.reset_at },
           { count := s.count + 1, reset_at := s.reset_at })) := by
  refine ⟨⟨rfl, rfl, rfl, by intro t; cases t <;> rfl⟩, ?_, ?_, ?_, ?_⟩
  · exact fun limit windowDur now s h => rlCheck_count_le limit windowDur now s h
  · exact fun limit windowDur s times h => rlRun_count_le limit windowDur s times h
  · intro limit windowDur now s hwin hge
    unfold rlCheck
    rw [if_neg (show ¬ s.reset_at ≤ now by omega)]
    dsimp only
    rw [if_neg (show ¬ s.count < limit by omega)]
  · intro limit windowDur now s hwin hlt
    unfold rlCheck
    rw [if_neg (show ¬ s.reset_at ≤ now by omega)]
    dsimp only
    rw [if_pos hlt]

/-- Witness for C3: a newcomer-quota record at the limit denies unchanged. -/
theorem rateLimiter_count_bounded_witness :
    (10 : Nat) < 100 ∧ (5 : Nat) ≤ 5 ∧
    rlCheck 5 86400 10 { count := 5, reset_at := 100 } =
      ({ allowed := false, remaining := 0, resetAt := 100 },
       { count := 5, reset_at := 100 }) :=
  ⟨by decide, by decide,
   rateLimiter_count_bounded.2.2.2.1 5 86400 10 { count := 5, reset_at := 100 }
     (by decide) (by decide)⟩

/-- A dispatch attempt never decreases the attempt counter. -/
theorem dispatchAttempt_attempts_mono (base maxDelay now : Nat) (success : Bool)
    (e : NotificationEntry) :
    e.attempts ≤ (dispatchAttempt base maxDelay now success e).attempts := by
  unfold dispatchAttempt
  split
  · exact Nat.le_refl _
  · split
    · exact Nat.le_refl _
    · dsimp only
      split
      · exact Nat.le_succ _
      · exact Nat.le_succ _

/-- The retry invariant: the attempt counter is bounded by `max_attempts`,
strictly when the entry is not yet failed. -/
def RetryInv (e : NotificationEntry) : Prop :=
  e.attempts ≤ e.max_attempts ∧
  (e.status ≠ NotifStatus.failed → e.attempts < e.max_attempts)

/-- One dispatch attempt preserves the retry invariant. -/
theorem dispatchAttempt_inv (base maxDelay now : Nat) (success : Bool)
    (e : NotificationEntry) (h : RetryInv e) :
    RetryInv (dispatchAttempt base maxDelay now success e) := by
  obtain ⟨h1, h2⟩ := h
  unfold dispatchAttempt
  split
  · exact ⟨h1, h2⟩
  · next hst =>
      have hne : e.status ≠ NotifStatus.failed := fun hc => hst (Or.inr hc)
      have hlt := h2 hne
      dsimp only
      split
      · exact ⟨Nat.le_of_lt hlt, fun _ => hlt⟩
      · split
        · next hlt2 => exact ⟨Nat.le_of_lt hlt2, fun _ => hlt2⟩
        · next hge2 =>
            refine ⟨?_, fun hc => absurd rfl hc⟩
            show e.attempts + 1 ≤ e.max_attempts
            omega

/-- Dispatch attempts never change `max_attempts`. -/
theorem dispatchAttempt_max_eq (base maxDelay now : Nat) (success : Bool)
    (e : NotificationEntry) :
    (dispatchAttempt base maxDelay now success e).max_attempts = e.max_attempts := by
  unfold dispatchAttempt
  split
  · rfl
  · split
    · rfl
    · dsimp only
      split <;> rfl

/-- Any run of dispatch attempts preserves the retry invariant and the
configured `max_attempts`. -/
theorem dispatchRun_inv (base maxDelay : Nat) (e : NotificationEntry)
    (trace : List (Bool × Nat)) (h : RetryInv e) :
    RetryInv (dispatchRun base maxDelay e trace) ∧
    (dispatchRun base maxDelay e trace).max_attempts = e.max_attempts := by
  induction trace generalizing e with
  | nil => exact ⟨h, rfl⟩
  | cons c rest ih =>
      obtain ⟨suc, now⟩ := c
      obtain ⟨ih1, ih2⟩ := ih _ (dispatchAttempt_inv base maxDelay now suc e h)
      refine ⟨ih1, ?_⟩
      show (dispatchRun base maxDelay
        (dispatchAttempt base maxDelay now suc e) rest).max_attempts = e.max_attempts
      rw [ih2, dispatchAttempt_max_eq]

/-- A failed entry absorbs every further dispatch attempt. -/
theorem dispatchAttempt_failed_absorbing (base maxDelay now : Nat)
    (success : Bool) (e : NotificationEntry)
    (h : e.status = NotifStatus.failed) :
    dispatchAttempt base maxDelay now success e = e := by
  unfold dispatchAttempt
  rw [if_pos (Or.inr h)]

/-- C5: a `NotificationQueue` entry created with the column defaults
(`attempts=0`, `max_attempts=3`, pending) has a monotonically non-decreasing
attempt counter that never exceeds `max_attempts`; after exactly 3 failed
dispatch attempts (not after 2) its status is `failed` with `attempts = 3`,
and from then on it is never dispatched again: every further attempt leaves
the entry unchanged, so nothing leaves the `failed` status. -/
theorem notificationQueue_retry_exhaustion :
    (∀ base maxDelay now success (e : NotificationEntry),
        e.attempts ≤ (dispatchAttempt base maxDelay now success e).attempts) ∧
    (∀ base maxDelay (trace : List (Bool × Nat)),
        (dispatchRun base maxDelay notifInit trace).attempts ≤
          notifInit.max_attempts) ∧
    (∀ base maxDelay now success (e : NotificationEntry),
        e.status = NotifStatus.failed →
        dispatchAttempt base maxDelay now success e = e) ∧
    ((dispatchRun 1 3600 notifInit [(false, 0), (false, 10)]).status =
        NotifStatus.pending ∧
     (dispatchRun 1 3600 notifInit [(false, 0), (false, 10)]).attempts = 2 ∧
     (dispatchRun 1 3600 notifInit [(false, 0), (false, 10), (false, 20)]).status =
        NotifStatus.failed ∧
     (dispatchRun 1 3600 notifInit [(false, 0), (false, 10), (false, 20)]).attempts = 3) ∧
    (∀ op : Bool × Nat,
        dispatchRun 1 3600 notifInit [(false, 0), (false, 10), (false, 20), op] =
          dispatchRun 1 3600 notifInit [(false, 0), (false, 10), (false, 20)]) := by
  have hinit : RetryInv notifInit := ⟨by decide, fun _ => by decide⟩
  refine ⟨?_, ?_, ?_, ⟨by decide, by decide, by decide, by decide⟩, ?_⟩
  · exact fun base maxDelay now success e =>
      dispatchAttempt_attempts_mono base maxDelay now success e
  · intro base maxDelay trace
    obtain ⟨⟨hle, _⟩, hmax⟩ := dispatchRun_inv base maxDelay notifInit trace hinit
    rw [← hmax]
    exact hle
  · exact fun base maxDelay now success e h =>
      dispatchAttempt_failed_absorbing base maxDelay now success e h
  · intro op
    obtain ⟨suc, now⟩ := op
    show dispatchRun 1 3600
        (dispatchAttempt 1 3600 now suc
          (dispatchRun 1 3600 notifInit [(false, 0), (false, 10), (false, 20)])) [] = _
    rw [dispatchRun]
    exact dispatchAttempt_failed_absorbing 1 3600 now suc _ (by decide)

end OpenNotes
